import Mathlib

/-!
Verification of the EmpowrAI credit model (`empowrai_credit_model.py`).

The file shallowly embeds the decision logic of `EmpowrAICreditModel`:
the bias auditor `_calculate_bias_metrics`, the ensemble inference
`predict_probability`, the decision/explanation engine
`generate_explanation`, and `get_feature_importance`.

Modelling conventions:
* Python floats are modelled as `ℚ` (all arithmetic performed by the
  repository's own code on these paths is exact decimal/ratio arithmetic).
* The fitted sklearn classifiers, the fitted `StandardScaler` and `np.log`
  are external collaborators; they are modelled as opaque total function
  parameters (`List ℚ → ℚ`, `List ℚ → ℚ`, `ℚ → ℚ`), since none of the
  verified properties depend on their values.
* `pandas`/`numpy` aggregate operations (`unique`, boolean-mask selection,
  `mean`, `min`, `max`) are modelled by the corresponding list operations,
  with demographics and predictions index-aligned as the caller
  (`train_model`) guarantees.
* Exceptions are modelled with `Except String`.
-/

namespace EmpowrAI

/-- The fixed feature schema `self.feature_names` from `__init__`. -/
def feature_names : List String :=
  ["credit_score", "monthly_income", "total_alternative_income",
   "payment_reliability_score", "cash_flow_consistency", "platform_ratings",
   "community_trust_score", "financial_engagement_score",
   "income_diversification", "business_health"]

/-! ## Bias auditor (`_calculate_bias_metrics`, lines 175-228) -/

/-- The `self.bias_metrics` dict assigned at lines 212-217 / 223-228. -/
structure BiasMetrics where
  disparate_impact : ℚ
  statistical_parity_difference : ℚ
  equal_opportunity_difference : ℚ
  demographic_groups_analyzed : ℕ
deriving DecidableEq, Repr

/-- The dict literal stored by `_calculate_bias_metrics`, as an ordered
key/value payload (the integer group count is carried as a `ℚ` value). -/
def biasPayload (b : BiasMetrics) : List (String × ℚ) :=
  [("disparate_impact", b.disparate_impact),
   ("statistical_parity_difference", b.statistical_parity_difference),
   ("equal_opportunity_difference", b.equal_opportunity_difference),
   ("demographic_groups_analyzed", (b.demographic_groups_analyzed : ℚ))]

/-- Python `min(...)` over a nonempty list (the guard `len(...) >= 2`
ensures nonemptiness at every use site; `[]` never reaches it). -/
def listMin : List ℚ → ℚ
  | [] => 0
  | x :: xs => xs.foldl min x

/-- Python `max(...)` over a nonempty list. -/
def listMax : List ℚ → ℚ
  | [] => 0
  | x :: xs => xs.foldl max x

/-- A held-out demographic row: `(race, gender)` attribute values
(`age` is never read by the auditor). -/
abbrev DemoRow := Int × Int

/-- Model of `test_demographics = df.loc[test_indices]` (lines 179-180): align each
test index with its demographic row; a missing index raises `KeyError`,
modelled as `Except.error`.  `df` maps row index to `(race, gender)`. -/
def alignDemographics (df : List (Nat × DemoRow)) : List Nat → Except String (List DemoRow)
  | [] => Except.ok []
  | i :: rest =>
    match df.find? (fun r => r.1 = i) with
    | none => Except.error "KeyError"
    | some r =>
      match alignDemographics df rest with
      | Except.error msg => Except.error msg
      | Except.ok tl => Except.ok (r.2 :: tl)

/-- Model of `predictions = (pred_proba > 0.5).astype(int)` (line 182). -/
def binPredictions (pred_proba : List ℚ) : List Bool :=
  pred_proba.map (fun p => decide ((1 : ℚ) / 2 < p))

/-- Model of `predictions[mask].mean()`: positive rate of the predictions selected by
an attribute mask over the aligned rows. -/
def groupRate (sel : DemoRow → Bool) (rows : List (DemoRow × Bool)) : ℚ :=
  let g := rows.filter (fun r => sel r.1)
  (g.countP (fun r => r.2) : ℚ) / (g.length : ℚ)

/-- The dict `race_approval_rates` of lines 186-191, as the list of rates of
the qualifying race groups (distinct race values with strictly more than 10
held-out records). -/
def qualRaceRates (test_demographics : List DemoRow) (preds : List Bool) : List ℚ :=
  let races := (test_demographics.map (fun d => d.1)).dedup
  let qual := races.filter
    (fun race => 10 < (test_demographics.filter (fun d => d.1 = race)).length)
  qual.map (fun race => groupRate (fun d => d.1 = race) (test_demographics.zip preds))

/-- Lines 193-197: `min(rates)/max(rates) if max(rates) > 0 else 1.0` when at
least two groups qualify, else the neutral `1.0`. -/
def disparateImpactOf (rates : List ℚ) : ℚ :=
  if 2 ≤ rates.length then
    (if 0 < listMax rates then listMin rates / listMax rates else 1)
  else 1

/-- Lines 199-210: the maximum absolute deviation of a qualifying gender
subgroup's rate from the overall rate, `0.0` when none qualifies. -/
def statParityDiff (test_demographics : List DemoRow) (preds : List Bool) : ℚ :=
  let overall : ℚ := (preds.countP id : ℚ) / (preds.length : ℚ)
  let genders := (test_demographics.map (fun d => d.2)).dedup
  let qual := genders.filter
    (fun g => 10 < (test_demographics.filter (fun d => d.2 = g)).length)
  let diffs := qual.map
    (fun g => |groupRate (fun d => d.2 = g) (test_demographics.zip preds) - overall|)
  match diffs with
  | [] => 0
  | _ => listMax diffs

/-- Number of qualifying race groups, `len(race_approval_rates)`. -/
def groupsAnalyzed (test_demographics : List DemoRow) (preds : List Bool) : ℕ :=
  (qualRaceRates test_demographics preds).length

/-- The metrics computed from aligned data (lines 182-217); the equal
opportunity difference is the hard-coded placeholder `0.05`. -/
def biasOf (test_demographics : List DemoRow) (preds : List Bool) : BiasMetrics :=
  { disparate_impact := disparateImpactOf (qualRaceRates test_demographics preds)
    statistical_parity_difference := statParityDiff test_demographics preds
    equal_opportunity_difference := 1 / 20
    demographic_groups_analyzed := groupsAnalyzed test_demographics preds }

/-- The `try` body of `_calculate_bias_metrics` (lines 178-217): the only
fallible step on the modelled domain is the `df.loc[test_indices]`
alignment. -/
def calcBiasBody (df : List (Nat × DemoRow)) (test_indices : List Nat)
    (pred_proba : List ℚ) : Except String BiasMetrics := do
  let test_demographics ← alignDemographics df test_indices
  Except.ok (biasOf test_demographics (binPredictions pred_proba))

/-- The `except` branch's all-neutral report (lines 223-228). -/
def neutralBias : BiasMetrics :=
  { disparate_impact := 1, statistical_parity_difference := 0,
    equal_opportunity_difference := 0, demographic_groups_analyzed := 0 }

/-- Model of `_calculate_bias_metrics`: the try/except wrapper; every internal
failure is collapsed to the neutral report, nothing propagates. -/
def calculate_bias_metrics (df : List (Nat × DemoRow)) (test_indices : List Nat)
    (pred_proba : List ℚ) : BiasMetrics :=
  match calcBiasBody df test_indices pred_proba with
  | Except.ok r => r
  | Except.error _ => neutralBias

/-! ## Ensemble wrapper and explanation engine -/

/-- Model of the stored classifier dict `self.model` with keys rf and gb
(line 146): the two fitted
classifiers, each mapping a scaled feature row to its positive-class
probability (`predict_proba(...)[0, 1]`). -/
structure Model where
  rf : List ℚ → ℚ
  gb : List ℚ → ℚ

/-- The mutable engine state relevant to inference: `self.model`,
`self.scaler` (its fitted `transform`), `self.feature_importance`
(a (feature, importance) table, `None` before training) and
`self.bias_metrics`. -/
structure Engine where
  model : Option Model
  scaler : List ℚ → List ℚ
  feature_importance : Option (List (String × ℚ))
  bias_metrics : Option BiasMetrics

/-- Model of `__init__`: untrained engine. -/
def initEngine : Engine :=
  { model := none, scaler := id, feature_importance := none, bias_metrics := none }

/-- Model of the `train_model` state mutation (lines 145-171): store the two fitted
classifiers, the fitted scaler, the averaged importance table, and the
bias metrics computed by `_calculate_bias_metrics` on the held-out split.
The sklearn fitting itself is the external collaborator producing
`rf`, `gb`, `fitted_scaler` and `importance`. -/
def train_model (e : Engine) (rf gb : List ℚ → ℚ) (fitted_scaler : List ℚ → List ℚ)
    (importance : List (String × ℚ)) (df : List (Nat × DemoRow))
    (test_indices : List Nat) (pred_proba : List ℚ) : Engine :=
  { e with
    model := some { rf := rf, gb := gb }
    scaler := fitted_scaler
    feature_importance := some importance
    bias_metrics := some (calculate_bias_metrics df test_indices pred_proba) }

/-- Model of `self.feature_names[:len(features)]` (line 236): the column labels of
the single-row DataFrame built from the caller's vector — positional
truncation of the schema against the vector's length. -/
def inferenceColumns (features : List ℚ) : List String :=
  feature_names.take features.length

/-- Model of `predict_probability` (lines 230-246): raise if untrained, scale the
vector with the training-time scaler, average the two classifiers'
positive-class probabilities. -/
def predict_probability (e : Engine) (features : List ℚ) : Except String ℚ :=
  match e.model with
  | none => Except.error "Model not trained yet"
  | some m =>
    let features_scaled := e.scaler features
    Except.ok ((m.rf features_scaled + m.gb features_scaled) / 2)

/-- The threshold cascade of lines 259-273 (`risk_score` there is the fused
approval probability): decision and confidence bands, first match wins. -/
def decisionBand (p : ℚ) : String × String :=
  if 7 / 10 ≤ p then ("APPROVED", "High")
  else if 55 / 100 ≤ p then ("APPROVED", "Medium")
  else if 4 / 10 ≤ p then ("CONDITIONAL", "Medium")
  else if 25 / 100 ≤ p then ("CONDITIONAL", "Low")
  else ("DENIED", "High")

/-- Importance lookup of lines 279-284: default `0.1`, overridden by the
first row of the importance table whose `feature` equals the name. -/
def lookupImportance (tbl : Option (List (String × ℚ))) (name : String) : ℚ :=
  match tbl with
  | none => 1 / 10
  | some t =>
    match t.find? (fun r => r.1 == name) with
    | some r => r.2
    | none => 1 / 10

/-- Value normalisation of lines 286-292; `log` stands for `np.log`. -/
def normalizeValue (log : ℚ → ℚ) (name : String) (value : ℚ) : ℚ :=
  if name = "credit_score" then (value - 300) / 550
  else if name = "monthly_income" ∨ name = "total_alternative_income" then
    min (log (value / 1000) / 3) 1
  else min value 1

/-- Model of `_humanize_feature_name` (lines 314-328): fixed translation table
with an underscores-to-spaces, title-case fallback. -/
def humanize_feature_name (name : String) : String :=
  if name = "credit_score" then "Traditional Credit Score"
  else if name = "monthly_income" then "Monthly Income"
  else if name = "total_alternative_income" then "Alternative Income Sources"
  else if name = "payment_reliability_score" then "Payment History"
  else if name = "cash_flow_consistency" then "Business Cash Flow Stability"
  else if name = "platform_ratings" then "Gig Platform Performance"
  else if name = "community_trust_score" then "Community Trust"
  else if name = "financial_engagement_score" then "Financial Education"
  else if name = "income_diversification" then "Income Diversification"
  else if name = "business_health" then "Overall Business Health"
  else String.intercalate " "
    (((name.split (· = '_')).map (fun w => w.toLower.capitalize)))

/-- One entry of `feature_contributions` (lines 296-301). -/
structure Contribution where
  name : String
  value : ℚ
  impact : ℚ
  importance : ℚ
deriving DecidableEq, Repr

/-- The entry built for one `(feature_name, value)` pair of the
`zip(self.feature_names, applicant_data)` loop (lines 278-301). -/
def contributionOf (e : Engine) (log : ℚ → ℚ) (nv : String × ℚ) : Contribution :=
  let importance := lookupImportance e.feature_importance nv.1
  { name := humanize_feature_name nv.1
    value := nv.2
    impact := importance * normalizeValue log nv.1 nv.2
    importance := importance }

/-- The dict returned by `generate_explanation` (lines 306-312). -/
structure Explanation where
  decision : String
  confidence : String
  risk_score : ℚ
  approval_probability : ℚ
  key_factors : List Contribution
deriving DecidableEq, Repr

/-- Descending order on contribution impact, the key of
`feature_contributions.sort(key=..., reverse=True)` (line 304). -/
def impactGE (a b : Contribution) : Prop := b.impact ≤ a.impact

instance : DecidableRel impactGE :=
  fun a b => inferInstanceAs (Decidable (b.impact ≤ a.impact))

instance : IsTotal Contribution impactGE :=
  ⟨fun a b => (le_total b.impact a.impact).imp (fun h => h) (fun h => h)⟩

instance : IsTrans Contribution impactGE :=
  ⟨fun _ _ _ h1 h2 => le_trans h2 h1⟩

/-- Model of `generate_explanation` (lines 248-312): raise if untrained, fuse the
probability, band it, build/sort the contribution list (Python's stable
descending sort modelled by the stable `insertionSort`), surface the top 5.
`log` stands for `np.log`. -/
def generate_explanation (e : Engine) (log : ℚ → ℚ) (applicant_data : List ℚ) :
    Except String Explanation :=
  match e.model with
  | none => Except.error "Model not trained yet"
  | some _ =>
    match predict_probability e applicant_data with
    | Except.error msg => Except.error msg
    | Except.ok risk_score =>
      let bands := decisionBand risk_score
      let feature_contributions :=
        (feature_names.zip applicant_data).map (contributionOf e log)
      let sortedContribs := feature_contributions.insertionSort impactGE
      Except.ok
        { decision := bands.1
          confidence := bands.2
          risk_score := 1 - risk_score
          approval_probability := risk_score
          key_factors := sortedContribs.take 5 }

/-! ## `get_feature_importance` (lines 330-334) with copy semantics

pandas DataFrames are heap objects; to make `.copy()` observable the
importance tables live in a heap (a list of tables) and the engine and the
caller hold references (indices).  Reading never mutates; `.copy()` and
fresh construction allocate a new slot at the end of the heap. -/

/-- A pandas DataFrame holding the importance table: its column labels and
its `(feature, importance)` rows. -/
structure ImportanceFrame where
  cols : List String
  rows : List (String × ℚ)
deriving DecidableEq, Repr

/-- Dereference a heap slot. -/
def readTable (heap : List ImportanceFrame) (r : Nat) : ImportanceFrame :=
  heap.getD r { cols := [], rows := [] }

/-- In-place mutation of the table behind a reference (what a caller could
do to the returned DataFrame). -/
def writeTable (heap : List ImportanceFrame) (r : Nat) (t : ImportanceFrame) :
    List ImportanceFrame :=
  heap.set r t

/-- Model of `get_feature_importance`: when `self.feature_importance is None` return a
freshly constructed empty two-column frame, otherwise return
`self.feature_importance.copy()` — in both cases a newly allocated object.
Returns the grown heap and the caller's reference. -/
def get_feature_importance (heap : List ImportanceFrame) (stored : Option Nat) :
    List ImportanceFrame × Nat :=
  match stored with
  | none => (heap ++ [{ cols := ["feature", "importance"], rows := [] }], heap.length)
  | some r => (heap ++ [readTable heap r], heap.length)

/-! ## Concrete sample data used to instantiate the theorems -/

/-- A demographic frame of 22 held-out rows: indices `0..21`, the first 11
of race 1, the last 11 of race 2, all of gender 1. -/
def auditDf : List (Nat × DemoRow) :=
  (List.range 22).zip
    ((List.replicate 11 ((1 : Int), (1 : Int))) ++ (List.replicate 11 ((2 : Int), (1 : Int))))

/-- All 22 row indices, in order. -/
def auditIdx : List Nat := List.range 22

/-- The demographic rows of `auditDf`, already aligned. -/
def auditDem : List DemoRow :=
  List.replicate 11 ((1 : Int), (1 : Int)) ++ List.replicate 11 ((2 : Int), (1 : Int))

/-- Fused probabilities putting every prediction below the 0.5 threshold:
both race groups qualify and both rates are 0. -/
def probsAllLow : List ℚ := List.replicate 22 0

/-- Fused probabilities approving exactly the race-2 rows: qualifying rates
0 and 1. -/
def probsSplit : List ℚ := List.replicate 11 0 ++ List.replicate 11 1

/-- A sample trained classifier pair with constant probabilities. -/
def sampleModel : Model := { rf := fun _ => 1 / 2, gb := fun _ => 1 / 2 }

/-- A sample trained engine. -/
def sampleEngine : Engine :=
  { model := some sampleModel, scaler := id
    feature_importance := some [("credit_score", 1 / 5)], bias_metrics := none }

/-- The explanation `sampleEngine` produces on the vector `[400]`: fused
probability `1/2`, `CONDITIONAL`/`Medium`, one contribution for the
truncated schema prefix `credit_score`. -/
def sampleExplanation : Explanation :=
  { decision := "CONDITIONAL", confidence := "Medium", risk_score := 1 / 2
    approval_probability := 1 / 2
    key_factors := [{ name := "Traditional Credit Score", value := 400,
                      impact := 2 / 55, importance := 1 / 5 }] }

/-- A one-table heap for the `get_feature_importance` copy-semantics
theorem. -/
def sampleHeap : List ImportanceFrame :=
  [{ cols := ["feature", "importance"], rows := [("credit_score", 2)] }]

/-! ## Helper lemmas -/

theorem except_bind_ok {ε α β : Type} (a : α) (f : α → Except ε β) :
    (Except.ok a : Except ε α) >>= f = f a := rfl

theorem except_bind_error {ε α β : Type} (msg : ε) (f : α → Except ε β) :
    (Except.error msg : Except ε α) >>= f = Except.error msg := rfl

theorem align_auditDf : alignDemographics auditDf auditIdx = Except.ok auditDem := rfl

theorem binPred_allLow : binPredictions probsAllLow = List.replicate 22 false := by
  norm_num [binPredictions, probsAllLow]

theorem binPred_split :
    binPredictions probsSplit = List.replicate 11 false ++ List.replicate 11 true := by
  norm_num [binPredictions, probsSplit]

set_option maxHeartbeats 1000000 in
theorem qualRates_allLow : qualRaceRates auditDem (List.replicate 22 false) = [0, 0] := by
  have hqual : ((auditDem.map (fun d => d.1)).dedup).filter
      (fun race => 10 < (auditDem.filter (fun d => d.1 = race)).length) = [1, 2] := by decide
  have h1 : (auditDem.zip (List.replicate 22 false)).filter (fun r => r.1.1 = (1 : Int))
      = List.replicate 11 (((1 : Int), (1 : Int)), false) := by decide
  have h2 : (auditDem.zip (List.replicate 22 false)).filter (fun r => r.1.1 = (2 : Int))
      = List.replicate 11 (((2 : Int), (1 : Int)), false) := by decide
  simp only [qualRaceRates, hqual, List.map_cons, List.map_nil, groupRate, h1, h2]
  norm_num

set_option maxHeartbeats 1000000 in
theorem qualRates_split :
    qualRaceRates auditDem (List.replicate 11 false ++ List.replicate 11 true) = [0, 1] := by
  have hqual : ((auditDem.map (fun d => d.1)).dedup).filter
      (fun race => 10 < (auditDem.filter (fun d => d.1 = race)).length) = [1, 2] := by decide
  have h1 : ((auditDem.zip (List.replicate 11 false ++ List.replicate 11 true)).filter
      (fun r => r.1.1 = (1 : Int)))
      = List.replicate 11 (((1 : Int), (1 : Int)), false) := by decide
  have h2 : ((auditDem.zip (List.replicate 11 false ++ List.replicate 11 true)).filter
      (fun r => r.1.1 = (2 : Int)))
      = List.replicate 11 (((2 : Int), (1 : Int)), true) := by decide
  have hc : List.countP (fun r => r.2)
      (List.replicate 11 (((2 : Int), (1 : Int)), true)) = 11 := by decide
  simp only [qualRaceRates, hqual, List.map_cons, List.map_nil, groupRate, h1, h2, hc]
  norm_num

set_option maxHeartbeats 1000000 in
theorem spd_allLow : statParityDiff auditDem (List.replicate 22 false) = 0 := by
  have hqual : ((auditDem.map (fun d => d.2)).dedup).filter
      (fun g => 10 < (auditDem.filter (fun d => d.2 = g)).length) = [1] := by decide
  have h1 : (auditDem.zip (List.replicate 22 false)).filter (fun r => r.1.2 = (1 : Int))
      = List.replicate 11 (((1 : Int), (1 : Int)), false)
        ++ List.replicate 11 (((2 : Int), (1 : Int)), false) := by decide
  have hc1 : List.countP (fun r => r.2)
      (List.replicate 11 (((1 : Int), (1 : Int)), false)) = 0 := by decide
  have hc2 : List.countP (fun r => r.2)
      (List.replicate 11 (((2 : Int), (1 : Int)), false)) = 0 := by decide
  have hc3 : List.countP id (List.replicate 22 false) = 0 := by decide
  simp only [statParityDiff, hqual, List.map_cons, List.map_nil, groupRate, h1,
    List.countP_append, hc1, hc2, hc3]
  norm_num [listMax]

set_option maxHeartbeats 1000000 in
theorem spd_split :
    statParityDiff auditDem (List.replicate 11 false ++ List.replicate 11 true) = 0 := by
  have hqual : ((auditDem.map (fun d => d.2)).dedup).filter
      (fun g => 10 < (auditDem.filter (fun d => d.2 = g)).length) = [1] := by decide
  have h1 : ((auditDem.zip (List.replicate 11 false ++ List.replicate 11 true)).filter
      (fun r => r.1.2 = (1 : Int)))
      = List.replicate 11 (((1 : Int), (1 : Int)), false)
        ++ List.replicate 11 (((2 : Int), (1 : Int)), true) := by decide
  have hc1 : List.countP (fun r => r.2)
      (List.replicate 11 (((1 : Int), (1 : Int)), false)) = 0 := by decide
  have hc2 : List.countP (fun r => r.2)
      (List.replicate 11 (((2 : Int), (1 : Int)), true)) = 11 := by decide
  have hc3 : List.countP id (List.replicate 11 false) = 0 := by decide
  have hc4 : List.countP id (List.replicate 11 true) = 11 := by decide
  simp only [statParityDiff, hqual, List.map_cons, List.map_nil, groupRate, h1,
    List.countP_append, hc1, hc2, hc3, hc4]
  norm_num [listMax]

theorem bias_allLow_eval :
    calculate_bias_metrics auditDf auditIdx probsAllLow =
      { disparate_impact := 1, statistical_parity_difference := 0,
        equal_opportunity_difference := 1 / 20, demographic_groups_analyzed := 2 } := by
  have hb : calculate_bias_metrics auditDf auditIdx probsAllLow
      = biasOf auditDem (binPredictions probsAllLow) := rfl
  rw [hb, binPred_allLow]
  simp only [biasOf, groupsAnalyzed, qualRates_allLow, spd_allLow, disparateImpactOf,
    BiasMetrics.mk.injEq]
  norm_num [listMin, listMax]

theorem bias_split_eval :
    calculate_bias_metrics auditDf auditIdx probsSplit =
      { disparate_impact := 0, statistical_parity_difference := 0,
        equal_opportunity_difference := 1 / 20, demographic_groups_analyzed := 2 } := by
  have hb : calculate_bias_metrics auditDf auditIdx probsSplit
      = biasOf auditDem (binPredictions probsSplit) := rfl
  rw [hb, binPred_split]
  simp only [biasOf, groupsAnalyzed, qualRates_split, spd_split, disparateImpactOf,
    BiasMetrics.mk.injEq]
  norm_num [listMin, listMax]

theorem foldl_min_le (x : ℚ) (l : List ℚ) : l.foldl min x ≤ x := by
  induction l generalizing x with
  | nil => exact le_refl x
  | cons a t ih => exact le_trans (ih (min x a)) (min_le_left x a)

theorem le_foldl_max (x : ℚ) (l : List ℚ) : x ≤ l.foldl max x := by
  induction l generalizing x with
  | nil => exact le_refl x
  | cons a t ih => exact le_trans (le_max_left x a) (ih (max x a))

theorem foldl_min_nonneg (x : ℚ) (l : List ℚ) (hx : 0 ≤ x) (hl : ∀ y ∈ l, 0 ≤ y) :
    0 ≤ l.foldl min x := by
  induction l generalizing x with
  | nil => exact hx
  | cons a t ih =>
    exact ih (min x a) (le_min hx (hl a (List.mem_cons_self a t)))
      (fun y hy => hl y (List.mem_cons_of_mem a hy))

theorem listMin_le_listMax (l : List ℚ) (h : l ≠ []) : listMin l ≤ listMax l := by
  cases l with
  | nil => exact absurd rfl h
  | cons x t => exact le_trans (foldl_min_le x t) (le_foldl_max x t)

theorem listMin_nonneg (l : List ℚ) (hl : ∀ y ∈ l, 0 ≤ y) : 0 ≤ listMin l := by
  cases l with
  | nil => exact le_refl 0
  | cons x t =>
    exact foldl_min_nonneg x t (hl x (List.mem_cons_self x t))
      (fun y hy => hl y (List.mem_cons_of_mem x hy))

theorem groupRate_nonneg (sel : DemoRow → Bool) (rows : List (DemoRow × Bool)) :
    0 ≤ groupRate sel rows := by
  simp only [groupRate]
  exact div_nonneg (Nat.cast_nonneg _) (Nat.cast_nonneg _)

theorem groupRate_le_one (sel : DemoRow → Bool) (rows : List (DemoRow × Bool)) :
    groupRate sel rows ≤ 1 := by
  simp only [groupRate]
  rcases Nat.eq_zero_or_pos (rows.filter (fun r => sel r.1)).length with h0 | hpos
  · rw [List.length_eq_zero] at h0
    simp [h0]
  · rw [div_le_one (by exact_mod_cast hpos)]
    exact_mod_cast List.countP_le_length _

theorem qualRaceRates_mem_bounds (td : List DemoRow) (preds : List Bool) (r : ℚ)
    (h : r ∈ qualRaceRates td preds) : 0 ≤ r ∧ r ≤ 1 := by
  simp only [qualRaceRates, List.mem_map] at h
  obtain ⟨race, _, rfl⟩ := h
  exact ⟨groupRate_nonneg _ _, groupRate_le_one _ _⟩

theorem calculate_bias_eq_biasOf (df : List (Nat × DemoRow)) (ti : List Nat) (pp : List ℚ)
    (td : List DemoRow) (h : alignDemographics df ti = Except.ok td) :
    calculate_bias_metrics df ti pp = biasOf td (binPredictions pp) := by
  simp [calculate_bias_metrics, calcBiasBody, h, except_bind_ok]

/-! ## Claim theorems -/

/-- C1 counterexample: on a held-out split with two qualifying race groups
(11 records each) whose positive-prediction rates are both 0, the maximum
rate is 0, yet the reported disparate impact is 1, not 0 as claimed. -/
theorem disparate_impact_zero_max_cex :
    2 ≤ (qualRaceRates auditDem (binPredictions probsAllLow)).length ∧
    listMax (qualRaceRates auditDem (binPredictions probsAllLow)) = 0 ∧
    (calculate_bias_metrics auditDf auditIdx probsAllLow).disparate_impact = 1 ∧
    (calculate_bias_metrics auditDf auditIdx probsAllLow).disparate_impact ≠ 0 := by
  rw [binPred_allLow, qualRates_allLow, bias_allLow_eval]
  refine ⟨by norm_num, by norm_num [listMax], rfl, by norm_num⟩

/-- C1 (amended): with at least 2 qualifying race groups the reported
disparate impact is min(rate)/max(rate) when the maximum rate is positive
and 1.0 (not 0) when the maximum rate is 0; with fewer than 2 qualifying
groups it is exactly 1.0. -/
theorem disparate_impact_formula (df : List (Nat × DemoRow)) (ti : List Nat) (pp : List ℚ)
    (td : List DemoRow) (h : alignDemographics df ti = Except.ok td) :
    (2 ≤ (qualRaceRates td (binPredictions pp)).length →
      (calculate_bias_metrics df ti pp).disparate_impact =
        if 0 < listMax (qualRaceRates td (binPredictions pp)) then
          listMin (qualRaceRates td (binPredictions pp)) /
            listMax (qualRaceRates td (binPredictions pp))
        else 1) ∧
    ((qualRaceRates td (binPredictions pp)).length < 2 →
      (calculate_bias_metrics df ti pp).disparate_impact = 1) := by
  rw [calculate_bias_eq_biasOf df ti pp td h]
  constructor
  · intro h2
    simp only [biasOf, disparateImpactOf, if_pos h2]
  · intro h2
    simp only [biasOf, disparateImpactOf, if_neg (by omega : ¬ 2 ≤ (qualRaceRates td (binPredictions pp)).length)]

/-- C1 witness: on the split input both race groups qualify, so the
formula branch applies and yields min/max (= 0/1 here). -/
theorem disparate_impact_formula_witness :
    (calculate_bias_metrics auditDf auditIdx probsSplit).disparate_impact =
      if 0 < listMax (qualRaceRates auditDem (binPredictions probsSplit)) then
        listMin (qualRaceRates auditDem (binPredictions probsSplit)) /
          listMax (qualRaceRates auditDem (binPredictions probsSplit))
      else 1 :=
  (disparate_impact_formula auditDf auditIdx probsSplit auditDem align_auditDf).1
    (by rw [binPred_split, qualRates_split]; norm_num)

/-- C5 counterexample: two qualifying race groups with rates 0 and 1 give a
reported disparate impact of exactly 0, which is outside the claimed
interval (0, 1]. -/
theorem disparate_impact_range_cex :
    2 ≤ (qualRaceRates auditDem (binPredictions probsSplit)).length ∧
    (calculate_bias_metrics auditDf auditIdx probsSplit).disparate_impact = 0 ∧
    ¬ (0 < (calculate_bias_metrics auditDf auditIdx probsSplit).disparate_impact) := by
  rw [binPred_split, qualRates_split, bias_split_eval]
  refine ⟨by norm_num, rfl, by norm_num⟩

/-- C5 (amended): with at least 2 qualifying groups the reported disparate
impact lies in the closed interval [0, 1] (0 is attained when some
qualifying group has rate 0 while another has a positive rate); with fewer
than 2 qualifying groups it is exactly 1.0. -/
theorem disparate_impact_range (df : List (Nat × DemoRow)) (ti : List Nat) (pp : List ℚ)
    (td : List DemoRow) (h : alignDemographics df ti = Except.ok td) :
    (2 ≤ (qualRaceRates td (binPredictions pp)).length →
      0 ≤ (calculate_bias_metrics df ti pp).disparate_impact ∧
      (calculate_bias_metrics df ti pp).disparate_impact ≤ 1) ∧
    ((qualRaceRates td (binPredictions pp)).length < 2 →
      (calculate_bias_metrics df ti pp).disparate_impact = 1) := by
  rw [calculate_bias_eq_biasOf df ti pp td h]
  constructor
  · intro h2
    simp only [biasOf, disparateImpactOf, if_pos h2]
    set rates := qualRaceRates td (binPredictions pp) with hr
    have hne : rates ≠ [] := by
      intro hnil
      rw [hnil] at h2
      simp at h2
    have hmem : ∀ y ∈ rates, 0 ≤ y := fun y hy =>
      (qualRaceRates_mem_bounds td (binPredictions pp) y (hr ▸ hy)).1
    by_cases hmax : 0 < listMax rates
    · rw [if_pos hmax]
      constructor
      · exact div_nonneg (listMin_nonneg rates hmem) (le_of_lt hmax)
      · rw [div_le_one hmax]
        exact listMin_le_listMax rates hne
    · rw [if_neg hmax]
      norm_num
  · intro h2
    simp only [biasOf, disparateImpactOf, if_neg (by omega : ¬ 2 ≤ (qualRaceRates td (binPredictions pp)).length)]

/-- C5 witness: the bounds hold on the concrete all-low split. -/
theorem disparate_impact_range_witness :
    0 ≤ (calculate_bias_metrics auditDf auditIdx probsAllLow).disparate_impact ∧
    (calculate_bias_metrics auditDf auditIdx probsAllLow).disparate_impact ≤ 1 :=
  (disparate_impact_range auditDf auditIdx probsAllLow auditDem align_auditDf).1
    (by rw [binPred_allLow, qualRates_allLow]; norm_num)

/-- C2: the decision/confidence banding of `generate_explanation` returns
exactly the five claimed bands with the claimed boundaries, first match
wins: p ≥ 0.70 → APPROVED/High; 0.55 ≤ p < 0.70 → APPROVED/Medium;
0.40 ≤ p < 0.55 → CONDITIONAL/Medium; 0.25 ≤ p < 0.40 → CONDITIONAL/Low;
p < 0.25 → DENIED/High. -/
theorem decision_band_cases (p : ℚ) :
    (7 / 10 ≤ p → decisionBand p = ("APPROVED", "High")) ∧
    (55 / 100 ≤ p ∧ p < 7 / 10 → decisionBand p = ("APPROVED", "Medium")) ∧
    (4 / 10 ≤ p ∧ p < 55 / 100 → decisionBand p = ("CONDITIONAL", "Medium")) ∧
    (25 / 100 ≤ p ∧ p < 4 / 10 → decisionBand p = ("CONDITIONAL", "Low")) ∧
    (p < 25 / 100 → decisionBand p = ("DENIED", "High")) := by
  unfold decisionBand
  refine ⟨fun h => ?_, fun h => ?_, fun h => ?_, fun h => ?_, fun h => ?_⟩ <;>
    split_ifs <;> first
      | rfl
      | (exfalso; rcases h with ⟨h1, h2⟩ <;> linarith)
      | (exfalso; linarith)

/-- C2 witness: the boundary p = 0.70 is APPROVED/High and p = 0.6999 is
APPROVED/Medium. -/
theorem decision_band_cases_witness :
    decisionBand (70 / 100) = ("APPROVED", "High") ∧
    decisionBand (6999 / 10000) = ("APPROVED", "Medium") :=
  ⟨(decision_band_cases (70 / 100)).1 (by norm_num),
   (decision_band_cases (6999 / 10000)).2.1 ⟨by norm_num, by norm_num⟩⟩

/-- C3: on any engine produced by `train_model`, `predict_probability`
scales the input vector with the scaler fitted at training time and returns
exactly the unweighted arithmetic mean (a+b)/2 of the two classifiers'
positive-class probabilities on the scaled vector. -/
theorem predict_probability_is_mean (e : Engine) (rf gb : List ℚ → ℚ)
    (fitted_scaler : List ℚ → List ℚ) (importance : List (String × ℚ))
    (df : List (Nat × DemoRow)) (ti : List Nat) (pp : List ℚ) (features : List ℚ) :
    predict_probability (train_model e rf gb fitted_scaler importance df ti pp) features =
      Except.ok ((rf (fitted_scaler features) + gb (fitted_scaler features)) / 2) := rfl

/-- C4: the bias audit never propagates a failure: whenever the audit body
fails internally the stored report is the all-neutral one (disparate impact
1.0, parity difference 0.0, 0 groups analyzed); empty and single-row
demographic data yield those same neutral values; and `train_model` always
stores an audit result (the audit is total, so training is never aborted
by it). -/
theorem bias_audit_never_raises (df : List (Nat × DemoRow)) (ti : List Nat) (pp : List ℚ) :
    ((calcBiasBody df ti pp).isOk = false → calculate_bias_metrics df ti pp = neutralBias) ∧
    (∀ (race gender : Int) (p : ℚ),
      (calculate_bias_metrics [(0, (race, gender))] [0] [p]).disparate_impact = 1 ∧
      (calculate_bias_metrics [(0, (race, gender))] [0] [p]).statistical_parity_difference = 0 ∧
      (calculate_bias_metrics [(0, (race, gender))] [0] [p]).demographic_groups_analyzed = 0) ∧
    ((calculate_bias_metrics [] [] []).disparate_impact = 1 ∧
     (calculate_bias_metrics [] [] []).statistical_parity_difference = 0 ∧
     (calculate_bias_metrics [] [] []).demographic_groups_analyzed = 0) ∧
    (∀ (e : Engine) (rf gb : List ℚ → ℚ) (sc : List ℚ → List ℚ)
        (imp : List (String × ℚ)),
      (train_model e rf gb sc imp df ti pp).bias_metrics =
        some (calculate_bias_metrics df ti pp)) := by
  refine ⟨?_, ?_, ?_, ?_⟩
  · intro hfail
    cases hm : calcBiasBody df ti pp with
    | ok r => rw [hm] at hfail; simp [Except.isOk, Except.toBool] at hfail
    | error msg => simp [calculate_bias_metrics, hm]
  · intro race gender p
    have hb : calculate_bias_metrics [(0, (race, gender))] [0] [p]
        = biasOf [(race, gender)] (binPredictions [p]) :=
      calculate_bias_eq_biasOf _ _ _ [(race, gender)] rfl
    rw [hb]
    refine ⟨?_, ?_, ?_⟩ <;>
      simp [biasOf, qualRaceRates, groupsAnalyzed, statParityDiff,
        disparateImpactOf, List.dedup]
  · have hb : calculate_bias_metrics [] [] [] = biasOf [] (binPredictions []) :=
      calculate_bias_eq_biasOf _ _ _ [] rfl
    rw [hb]
    refine ⟨?_, ?_, ?_⟩ <;>
      simp [biasOf, qualRaceRates, groupsAnalyzed, statParityDiff,
        disparateImpactOf, binPredictions, List.dedup]
  · intro e rf gb sc imp
    rfl

/-- C4 witness: a test index absent from the demographic frame makes the
audit body fail, and the stored report is the all-neutral one. -/
theorem bias_audit_never_raises_witness :
    calculate_bias_metrics [] [0] [] = neutralBias :=
  (bias_audit_never_raises [] [0] []).1 rfl

/-- C6 counterexample: on a successful audit the stored payload is four
bare numeric entries — its keys are exactly the four metric names, its
values the four numbers, with the placeholder equal-opportunity value 0.05
carried as a plain number; no entry flags it as unimplemented, contrary to
the claim. -/
theorem equal_opportunity_flag_cex :
    (biasPayload (calculate_bias_metrics auditDf auditIdx probsAllLow)).map Prod.fst =
      ["disparate_impact", "statistical_parity_difference",
       "equal_opportunity_difference", "demographic_groups_analyzed"] ∧
    (biasPayload (calculate_bias_metrics auditDf auditIdx probsAllLow)).map Prod.snd =
      [1, 0, 1 / 20, 2] := by
  rw [bias_allLow_eval]
  exact ⟨rfl, by norm_num [biasPayload]⟩

/-- C6 (amended): every successful audit stores the fixed sentinel 0.05 for
the equal-opportunity difference — a constant never computed from the data
(the fallback path stores 0.0) — but the result payload does not flag it:
the payload always holds exactly the four metric keys and nothing else. -/
theorem equal_opportunity_sentinel (df : List (Nat × DemoRow)) (ti : List Nat) (pp : List ℚ) :
    (∀ r, calcBiasBody df ti pp = Except.ok r → r.equal_opportunity_difference = 1 / 20) ∧
    ((calcBiasBody df ti pp).isOk = false →
      (calculate_bias_metrics df ti pp).equal_opportunity_difference = 0) ∧
    (biasPayload (calculate_bias_metrics df ti pp)).map Prod.fst =
      ["disparate_impact", "statistical_parity_difference",
       "equal_opportunity_difference", "demographic_groups_analyzed"] := by
  refine ⟨?_, ?_, rfl⟩
  · intro r hr
    cases halign : alignDemographics df ti with
    | error msg =>
      rw [show calcBiasBody df ti pp = Except.error msg by
        simp [calcBiasBody, halign, except_bind_error]] at hr
      cases hr
    | ok td =>
      rw [show calcBiasBody df ti pp
          = Except.ok (biasOf td (binPredictions pp)) by
        simp [calcBiasBody, halign, except_bind_ok]] at hr
      cases hr
      rfl
  · intro hfail
    cases hm : calcBiasBody df ti pp with
    | ok r => rw [hm] at hfail; simp [Except.isOk, Except.toBool] at hfail
    | error msg => simp [calculate_bias_metrics, hm, neutralBias]

/-- C6 witness: the sentinel on a successful (empty-data) audit, and the
fallback constant on a failing one. -/
theorem equal_opportunity_sentinel_witness :
    (biasOf [] (binPredictions [])).equal_opportunity_difference = 1 / 20 ∧
    (calculate_bias_metrics [] [0] []).equal_opportunity_difference = 0 :=
  ⟨(equal_opportunity_sentinel [] [] []).1 (biasOf [] (binPredictions [])) rfl,
   (equal_opportunity_sentinel [] [0] []).2.1 rfl⟩

/-- C7: invoked on an untrained engine, both `predict_probability` and
`generate_explanation` raise the not-trained error synchronously and
return no default score; on a trained engine both succeed (the error
branch is unreachable), and `train_model` always leaves the engine
trained. -/
theorem not_trained_error_raised (e : Engine) (v : List ℚ) (log : ℚ → ℚ) :
    (e.model = none →
      predict_probability e v = Except.error "Model not trained yet" ∧
      generate_explanation e log v = Except.error "Model not trained yet") ∧
    (∀ m, e.model = some m →
      (∃ p, predict_probability e v = Except.ok p) ∧
      (∃ x, generate_explanation e log v = Except.ok x)) ∧
    (∀ (rf gb : List ℚ → ℚ) (sc : List ℚ → List ℚ) (imp : List (String × ℚ))
        (df : List (Nat × DemoRow)) (ti : List Nat) (pp : List ℚ),
      (train_model e rf gb sc imp df ti pp).model ≠ none) := by
  obtain ⟨om, sc0, fi0, bm0⟩ := e
  refine ⟨?_, ?_, ?_⟩
  · intro h
    cases om with
    | some m => cases h
    | none => exact ⟨rfl, rfl⟩
  · intro m hm
    cases om with
    | none => cases hm
    | some m' =>
      cases hm
      exact ⟨⟨_, rfl⟩, ⟨_, rfl⟩⟩
  · intro rf gb sc imp df ti pp h
    cases h

/-- C7 witness: the untrained branch at the freshly initialized engine. -/
theorem not_trained_error_raised_witness :
    predict_probability initEngine [] = Except.error "Model not trained yet" ∧
    generate_explanation initEngine id [] = Except.error "Model not trained yet" :=
  (not_trained_error_raised initEngine [] id).1 rfl

/-- C8: on a trained engine, a feature vector strictly shorter than the
10-entry schema is handled by positional truncation — the DataFrame columns
are the schema's prefix of the vector's length, the explanation loop pairs
schema names and values up to the shorter length — and both inference
entry points complete without raising. -/
theorem short_vector_truncation (e : Engine) (m : Model) (features : List ℚ) (log : ℚ → ℚ)
    (h : e.model = some m) (hlen : features.length < feature_names.length) :
    inferenceColumns features = feature_names.take features.length ∧
    (feature_names.zip features).length = features.length ∧
    (∃ p, predict_probability e features = Except.ok p) ∧
    (∃ x, generate_explanation e log features = Except.ok x ∧
      x.key_factors.length ≤ features.length) := by
  obtain ⟨om, sc0, fi0, bm0⟩ := e
  cases om with
  | none => cases h
  | some m' =>
    refine ⟨rfl, ?_, ⟨_, rfl⟩, ⟨_, rfl, ?_⟩⟩
    · rw [List.length_zip]
      omega
    · simp only [List.length_take, List.length_insertionSort, List.length_map,
        List.length_zip]
      omega

/-- C8 witness: a 3-entry vector on the sample trained engine. -/
theorem short_vector_truncation_witness :
    inferenceColumns [1, 2, 3] = feature_names.take 3 ∧
    ((feature_names.zip [1, 2, 3]).length = 3) ∧
    (∃ p, predict_probability sampleEngine [1, 2, 3] = Except.ok p) ∧
    (∃ x, generate_explanation sampleEngine id [1, 2, 3] = Except.ok x ∧
      x.key_factors.length ≤ 3) :=
  short_vector_truncation sampleEngine sampleModel [1, 2, 3] id rfl (by decide)

/-- C9: every explanation's `key_factors` list is sorted descending by
impact, has at most 5 entries, and each entry carries the caller-supplied
raw value unmodified, the looked-up importance (trained value, or the
default 0.1 when the feature is absent — `lookupImportance`), and the
impact importance × normalized value. -/
theorem key_factors_properties (e : Engine) (log : ℚ → ℚ) (data : List ℚ) (x : Explanation)
    (h : generate_explanation e log data = Except.ok x) :
    x.key_factors.length ≤ 5 ∧
    List.Sorted impactGE x.key_factors ∧
    (∀ c ∈ x.key_factors, ∃ nv ∈ feature_names.zip data,
      c.name = humanize_feature_name nv.1 ∧
      c.value = nv.2 ∧
      c.importance = lookupImportance e.feature_importance nv.1 ∧
      c.impact = lookupImportance e.feature_importance nv.1 * normalizeValue log nv.1 nv.2) := by
  obtain ⟨om, sc0, fi0, bm0⟩ := e
  cases om with
  | none => cases h
  | some m =>
    obtain rfl := (Except.ok.inj h).symm
    refine ⟨?_, ?_, ?_⟩
    · exact le_trans (List.length_take_le 5 _) (le_refl 5)
    · exact List.Pairwise.sublist (List.take_sublist 5 _)
        (List.sorted_insertionSort impactGE _)
    · intro c hc
      have h1 := List.take_subset 5 _ hc
      have h2 := (List.perm_insertionSort impactGE _).subset h1
      obtain ⟨nv, hnv, rfl⟩ := List.mem_map.mp h2
      exact ⟨nv, hnv, rfl, rfl, rfl, rfl⟩

/-- C9 witness: the sample engine on the one-entry vector `[400]` yields a
single contribution (Traditional Credit Score, raw value 400, importance
1/5, impact (1/5)·((400−300)/550)), trivially sorted, of length ≤ 5. -/
theorem key_factors_properties_witness :
    sampleExplanation.key_factors.length ≤ 5 ∧
    List.Sorted impactGE sampleExplanation.key_factors ∧
    (∀ c ∈ sampleExplanation.key_factors, ∃ nv ∈ feature_names.zip [(400 : ℚ)],
      c.name = humanize_feature_name nv.1 ∧
      c.value = nv.2 ∧
      c.importance = lookupImportance sampleEngine.feature_importance nv.1 ∧
      c.impact = lookupImportance sampleEngine.feature_importance nv.1
        * normalizeValue id nv.1 nv.2) := by
  have hgen : generate_explanation sampleEngine id [(400 : ℚ)]
      = Except.ok sampleExplanation := by
    norm_num [generate_explanation, predict_probability, sampleEngine, sampleModel,
      sampleExplanation, decisionBand, feature_names, contributionOf, lookupImportance,
      humanize_feature_name, normalizeValue, List.insertionSort, Explanation.mk.injEq,
      Contribution.mk.injEq]
  exact key_factors_properties sampleEngine id [(400 : ℚ)] sampleExplanation hgen

/-- C10: `get_feature_importance` on an untrained engine returns a freshly
built empty two-column (feature, importance) frame without raising;
on a trained engine it returns a copy — a fresh reference whose contents
equal the stored table, so writing through the returned reference leaves
the engine's stored table unchanged. -/
theorem feature_importance_copy (heap : List ImportanceFrame) :
    readTable (get_feature_importance heap none).1 (get_feature_importance heap none).2
      = { cols := ["feature", "importance"], rows := [] } ∧
    (∀ r : Nat, r < heap.length →
      (get_feature_importance heap (some r)).2 ≠ r ∧
      readTable (get_feature_importance heap (some r)).1
          (get_feature_importance heap (some r)).2
        = readTable heap r ∧
      (∀ t' : ImportanceFrame, readTable
          (writeTable (get_feature_importance heap (some r)).1
            (get_feature_importance heap (some r)).2 t') r = readTable heap r)) := by
  constructor
  · simp [get_feature_importance, readTable, List.getD_eq_getElem?_getD,
      List.getElem?_concat_length]
  · intro r hr
    refine ⟨by simp only [get_feature_importance]; omega, ?_, ?_⟩
    · simp [get_feature_importance, readTable, List.getD_eq_getElem?_getD,
        List.getElem?_append, hr]
    · intro t'
      have hne : heap.length ≠ r := by omega
      simp [get_feature_importance, readTable, writeTable,
        List.getD_eq_getElem?_getD, List.getElem?_set_ne hne,
        List.getElem?_append, hr]

/-- C10 witness: the concrete one-table heap. -/
theorem feature_importance_copy_witness :
    readTable (get_feature_importance sampleHeap none).1
        (get_feature_importance sampleHeap none).2
      = { cols := ["feature", "importance"], rows := [] } ∧
    (get_feature_importance sampleHeap (some 0)).2 ≠ 0 ∧
    readTable (get_feature_importance sampleHeap (some 0)).1
        (get_feature_importance sampleHeap (some 0)).2
      = readTable sampleHeap 0 ∧
    readTable (writeTable (get_feature_importance sampleHeap (some 0)).1
        (get_feature_importance sampleHeap (some 0)).2 { cols := [], rows := [] }) 0
      = readTable sampleHeap 0 := by
  have h := (feature_importance_copy sampleHeap).2 0 (by decide)
  exact ⟨(feature_importance_copy sampleHeap).1, h.1, h.2.1, h.2.2 _⟩

end EmpowrAI
